import Mathlib

/-!
Verification of the OpenHands CLI settings wizard and configuration root.

The development shallowly embeds two Python modules:
  * `openhands/cli/settings.py` — the interactive settings wizard flows
    (`modify_llm_settings_basic`, `modify_llm_settings_advanced`,
    `modify_search_api_settings`, `get_validated_input`), and
  * `openhands/core/config/openhands_config.py` — the `OpenHandsConfig`
    configuration root with its lazily-defaulting `get/set` profile helpers.

Python dictionaries are embedded as association lists with first-match lookup
and in-place-overwrite insertion (matching `dict.__setitem__` semantics).
Interactive prompts are embedded as scripts: each prompt outcome is either a
value or one of the three cancellation signals the code catches
(`UserCancelledError`, `KeyboardInterrupt`, `EOFError`).  A flow consumes its
script and yields an outcome record carrying the branch taken (cancel /
decline / keep / save), the resulting configuration root, and the list of
`settings_store.store` calls made; `none` stands for an abnormal run (an
uncaught Python error such as `IndexError`, or a script too short to drive
the prompt loop to completion).
-/

set_option autoImplicit false

universe u

/-- First-match lookup in an association list, embedding `name in d` /
`d[name]` on a Python `dict`. -/
def lookupD {α : Type u} (k : String) : List (String × α) → Option α
  | [] => none
  | (k1, v) :: rest => if k1 = k then some v else lookupD k rest

/-- Insertion into an association list keeping the original key position on
overwrite, embedding `d[name] = v` on a Python `dict`. -/
def insertD {α : Type u} (k : String) (v : α) : List (String × α) → List (String × α)
  | [] => [(k, v)]
  | (k1, v1) :: rest => if k1 = k then (k, v) :: rest else (k1, v1) :: insertD k v rest

/-- Modelled from the spec: `pydantic.SecretStr`, an opaque wrapper around a
string secret (the class itself is outside the excerpt). -/
structure SecretStr where
  secret : String
deriving DecidableEq

/-- Modelled from the spec: the LLM profile record (`LLMConfig`, outside the
excerpt).  Only the fields the wizard flows read or write are kept: `model`,
`api_key` and `base_url`. -/
structure LLMConfig where
  model : String := "claude-sonnet-4-20250514"
  api_key : Option SecretStr := none
  base_url : Option String := none
deriving DecidableEq

/-- Modelled from the spec: the condenser configuration variants the wizard
constructs (`LLMSummarizingCondenserConfig`, `ConversationWindowCondenserConfig`,
`CondenserPipelineConfig`; their classes are outside the excerpt). -/
inductive CondenserConfig where
  | llmSummarizing (llm_config : LLMConfig) (keep_first : Option Nat) (max_size : Option Nat)
  | conversationWindow
  | pipeline (condensers : List CondenserConfig)

/-- Modelled from the spec: the agent profile record (`AgentConfig`, outside
the excerpt).  Only the fields this excerpt touches are kept. -/
structure AgentConfig where
  condenser : Option CondenserConfig := none
  llm_config : Option String := none

/-- Modelled from the spec: the security sub-config (`SecurityConfig`, outside
the excerpt); the excerpt only uses `confirmation_mode`. -/
structure SecurityConfig where
  confirmation_mode : Bool := false
deriving DecidableEq

/-- Modelled from the spec: the flat persisted `Settings` record (its class is
outside the excerpt) — "a flat record of user-facing preferences (model, API
key, base URL, agent choice, confirmation mode, condenser enablement, search
API key)".  `Settings()` constructs the all-`none` record. -/
structure Settings where
  llm_model : Option String := none
  llm_api_key : Option SecretStr := none
  llm_base_url : Option String := none
  agent : Option String := none
  confirmation_mode : Option Bool := none
  enable_default_condenser : Option Bool := none
  search_api_key : Option SecretStr := none
deriving DecidableEq

/-- Modelled from the spec: `OH_DEFAULT_AGENT` (a constant agent name defined
outside the excerpt; its exact value is immaterial to every claim). -/
def OH_DEFAULT_AGENT : String := "CodeActAgent"

/-- The configuration root (`OpenHandsConfig`).  The fields the wizard flows
and profile helpers read or write are kept; presentation-only scalars (paths,
limits, flags unused by this excerpt) are omitted. -/
structure OpenHandsConfig where
  llms : List (String × LLMConfig) := []
  agents : List (String × AgentConfig) := []
  default_agent : String := OH_DEFAULT_AGENT
  security : SecurityConfig := {}
  enable_default_condenser : Bool := true
  search_api_key : Option SecretStr := none

/-- `OpenHandsConfig.get_llm_config`: return the profile under `name` when
present; otherwise fall back to the `'llm'` default profile, creating it when
absent.  (The Python method also logs a warning for an unknown non-`'llm'`
name, which has no semantic effect.)  Mutation of `self.llms` is embedded by
returning the updated configuration alongside the result. -/
def OpenHandsConfig.get_llm_config (c : OpenHandsConfig) (name : String) :
    LLMConfig × OpenHandsConfig :=
  match lookupD name c.llms with
  | some cfg => (cfg, c)
  | none =>
    match lookupD "llm" c.llms with
    | some cfg => (cfg, c)
    | none => ({}, { c with llms := insertD "llm" {} c.llms })

/-- `OpenHandsConfig.set_llm_config`: `self.llms[name] = value`. -/
def OpenHandsConfig.set_llm_config (c : OpenHandsConfig) (value : LLMConfig)
    (name : String) : OpenHandsConfig :=
  { c with llms := insertD name value c.llms }

/-- `OpenHandsConfig.get_agent_config`: return the profile under `name` when
present; otherwise fall back to the `'agent'` default profile, creating it
when absent. -/
def OpenHandsConfig.get_agent_config (c : OpenHandsConfig) (name : String) :
    AgentConfig × OpenHandsConfig :=
  match lookupD name c.agents with
  | some cfg => (cfg, c)
  | none =>
    match lookupD "agent" c.agents with
    | some cfg => (cfg, c)
    | none => ({}, { c with agents := insertD "agent" {} c.agents })

/-- `OpenHandsConfig.set_agent_config`: `self.agents[name] = value`. -/
def OpenHandsConfig.set_agent_config (c : OpenHandsConfig) (value : AgentConfig)
    (name : String) : OpenHandsConfig :=
  { c with agents := insertD name value c.agents }

/-- The three cancellation signals the wizard flows catch:
`UserCancelledError`, `KeyboardInterrupt`, `EOFError`. -/
inductive CancelSignal where
  | userCancelled
  | keyboardInterrupt
  | eofError
deriving DecidableEq

/-- Acceptance test applied by `get_validated_input` to a prompt response:
the supplied validator when there is one (`if validator:`), otherwise
non-emptiness (`elif not value:` on a Python string). -/
def validOf (validator : Option (String → Bool)) (v : String) : Bool :=
  match validator with
  | some f => f v
  | none => !(v == "")

/-- `get_validated_input`: loop reading prompt responses until one is
accepted, re-prompting on each rejected response; a cancellation signal
raised by the prompt propagates out.  The (conceptually unbounded) stream of
prompt outcomes is embedded as a list; `none` means the list was exhausted
while the loop was still re-prompting. -/
def get_validated_input (validator : Option (String → Bool)) :
    List (Except CancelSignal String) → Option (Except CancelSignal String)
  | [] => none
  | Except.error sig :: _ => some (Except.error sig)
  | Except.ok v :: rest =>
    if validOf validator v then some (Except.ok v)
    else get_validated_input validator rest

/-- Sequencing for script-driven prompt phases: `none` (exhausted script) and
cancellation signals propagate, values feed the continuation.  This is the
bind of `ExceptT CancelSignal Option`, written out explicitly. -/
def resBind {α β : Type} (x : Option (Except CancelSignal α))
    (f : α → Option (Except CancelSignal β)) : Option (Except CancelSignal β) :=
  match x with
  | none => none
  | some (Except.error sig) => some (Except.error sig)
  | some (Except.ok a) => f a

/-- Modelled from the spec: the verified-model constants of
`openhands/cli/utils.py` (`VERIFIED_PROVIDERS`, `VERIFIED_OPENAI_MODELS`,
`VERIFIED_ANTHROPIC_MODELS`, `VERIFIED_MISTRAL_MODELS`,
`VERIFIED_OPENHANDS_MODELS`), which are outside the excerpt; the flows are
parametrised over their contents. -/
structure VerifiedLists where
  providers : List String
  openai_models : List String
  anthropic_models : List String
  mistral_models : List String
  openhands_models : List String

/-- One entry of the mapping returned by `organize_models_and_providers`
(outside the excerpt): per provider, its model-name separator and its
registry model list. -/
structure ProviderInfo where
  separator : String
  models : List String
deriving DecidableEq

/-- The four successive reorderings of `provider_models` performed by
`modify_llm_settings_basic` (lines 236-255): for each verified provider, when
it is the selected one, the registry models already in the verified list are
filtered out and the verified list is prepended. -/
def orderedProviderModels (V : VerifiedLists) (provider : String)
    (models0 : List String) : List String :=
  let m1 := if provider = "openai"
    then V.openai_models ++ models0.filter (fun m => !(V.openai_models.contains m))
    else models0
  let m2 := if provider = "anthropic"
    then V.anthropic_models ++ m1.filter (fun m => !(V.anthropic_models.contains m))
    else m1
  let m3 := if provider = "mistral"
    then V.mistral_models ++ m2.filter (fun m => !(V.mistral_models.contains m))
    else m2
  if provider = "openhands"
    then V.openhands_models ++ m3.filter (fun m => !(V.openhands_models.contains m))
    else m3

/-- The model options actually offered to the user in step 2 of
`modify_llm_settings_basic`: for the `openhands` provider the `cli_confirm`
dialog lists exactly `VERIFIED_OPENHANDS_MODELS` (line 279), while for every
other provider the fuzzy completer is built over the merged
`provider_models` list (line 308). -/
def offeredModels (V : VerifiedLists) (provider : String)
    (models0 : List String) : List String :=
  if provider = "openhands" then V.openhands_models
  else orderedProviderModels V provider models0

/-- Script of prompt outcomes driving one run of `modify_llm_settings_basic`.
Each `cli_confirm` outcome is an index (or a cancellation signal); each
`get_validated_input` call consumes its own response list.  The final save
confirmation sits outside the flow's `try` block, so it is a plain index. -/
structure BasicScript where
  providerChoice : Except CancelSignal Nat
  providerInputs : List (Except CancelSignal String)
  modelChoice : Except CancelSignal Nat
  changeModel : Except CancelSignal Nat
  modelInputs : List (Except CancelSignal String)
  apiKeyInputs : List (Except CancelSignal String)
  saveConfirm : Nat

/-- The values collected by the `try` block of `modify_llm_settings_basic`. -/
structure BasicInputs where
  provider : String
  model : String
  api_key : String
deriving DecidableEq

/-- Script for `modify_llm_settings_advanced` (six steps, then save). -/
structure AdvancedScript where
  customModelInputs : List (Except CancelSignal String)
  baseUrlInputs : List (Except CancelSignal String)
  apiKeyInputs : List (Except CancelSignal String)
  agentInputs : List (Except CancelSignal String)
  confirmationChoice : Except CancelSignal Nat
  condensationChoice : Except CancelSignal Nat
  saveConfirm : Nat

/-- The values collected by the `try` block of `modify_llm_settings_advanced`. -/
structure AdvInputs where
  custom_model : String
  base_url : String
  api_key : String
  agent : String
  confirmation : Bool
  condensation : Bool
deriving DecidableEq

/-- Script for `modify_search_api_settings`. -/
structure SearchScript where
  modifyChoice : Except CancelSignal Nat
  keyInputs : List (Except CancelSignal String)
  saveConfirm : Nat

/-- The value collected by the `try` block of `modify_search_api_settings`
(`''` for the remove option). -/
structure SearchInputs where
  search_api_key : String
deriving DecidableEq

/-- Which return path a wizard flow took: caught cancellation signal,
declined final save, kept current setting (search flow only), or saved. -/
inductive FlowTag where
  | cancelled (sig : CancelSignal)
  | declined
  | kept
  | saved
deriving DecidableEq

/-- Observable outcome of a wizard flow run: the path taken, the resulting
in-memory configuration root, the sequence of `settings_store.store` calls,
and (on the save path) the collected inputs. -/
structure FlowOut (ι : Type) where
  tag : FlowTag
  config : OpenHandsConfig
  stores : List Settings
  inputs : Option ι := none

/-- The prompt-collection phase of `modify_llm_settings_basic` (the body of
its `try` block, together with the provider-list preparation that precedes
it).  Faithful points: the provider list is the registry keys with verified
providers moved to the front; an empty registry makes `provider_list[0]`
raise (`none`); a `cli_confirm` index at or beyond the verified providers
routes to the manual provider prompt whose validator is registry membership;
an unknown provider falls back to `anthropic` or the first registry key; for
`openhands` the model is picked by index from `VERIFIED_OPENHANDS_MODELS`
(out-of-range raises), otherwise the user may keep the default model or type
one (validator: non-blank after strip); the API key prompt uses the default
non-empty validator. -/
def collectBasic (V : VerifiedLists) (om : List (String × ProviderInfo))
    (s : BasicScript) : Option (Except CancelSignal BasicInputs) :=
  let provider_list0 := om.map Prod.fst
  let verified_providers := V.providers.filter (fun p => provider_list0.contains p)
  let provider_list :=
    verified_providers ++ provider_list0.filter (fun p => !(verified_providers.contains p))
  let defaultProvider? : Option String :=
    if provider_list.contains "anthropic" then some "anthropic" else provider_list.head?
  match defaultProvider? with
  | none => none
  | some _ =>
    resBind (some s.providerChoice) fun choice_index =>
    resBind
      (if h : choice_index < verified_providers.length
        then some (Except.ok (verified_providers.get ⟨choice_index, h⟩))
        else get_validated_input (some (fun x => (lookupD x om).isSome)) s.providerInputs)
      fun provider0 =>
    let fallback? : Option String :=
      if (lookupD "anthropic" om).isSome then some "anthropic" else (om.map Prod.fst).head?
    let provider? : Option String :=
      if (lookupD provider0 om).isSome then some provider0 else fallback?
    match provider? with
    | none => none
    | some provider =>
      match lookupD provider om with
      | none => none
      | some info =>
        let provider_models := orderedProviderModels V provider info.models
        let default_model : String :=
          if provider = "anthropic" && !V.anthropic_models.isEmpty then
            V.anthropic_models.headD ""
          else if provider = "openai" && !V.openai_models.isEmpty then
            V.openai_models.headD ""
          else if provider = "mistral" && !V.mistral_models.isEmpty then
            V.mistral_models.headD ""
          else if provider = "openhands" && !V.openhands_models.isEmpty then
            V.openhands_models.headD ""
          else provider_models.headD "claude-sonnet-4-20250514"
        let finish : String → Option (Except CancelSignal BasicInputs) := fun model =>
          resBind (get_validated_input none s.apiKeyInputs) fun api_key =>
            some (Except.ok ⟨provider, model, api_key⟩)
        if provider = "openhands" then
          resBind (some s.modelChoice) fun model_choice =>
          match V.openhands_models[model_choice]? with
          | none => none
          | some model => finish model
        else
          resBind (some s.changeModel) fun change_model =>
          if change_model = 1 then
            resBind
              (get_validated_input (some (fun x => !(x.trim == ""))) s.modelInputs)
              finish
          else finish default_model

/-- The commit phase of `modify_llm_settings_basic` (lines 365-391): write the
composed model identifier, the API key and a cleared base URL into the default
LLM profile, point the default agent at `OH_DEFAULT_AGENT` with an LLM
summarizing condenser, then mirror the same values into the loaded (or fresh)
`Settings` record and store it once. -/
def commitBasic (om : List (String × ProviderInfo)) (config : OpenHandsConfig)
    (load : Option Settings) (i : BasicInputs) : Option (FlowOut BasicInputs) :=
  match lookupD i.provider om with
  | none => none
  | some info =>
    let p := config.get_llm_config "llm"
    let llm_config := { p.1 with
      model := i.provider ++ info.separator ++ i.model
      api_key := some ⟨i.api_key⟩
      base_url := none }
    let config := p.2.set_llm_config llm_config "llm"
    let config := { config with
      default_agent := OH_DEFAULT_AGENT
      enable_default_condenser := true }
    let q := config.get_agent_config config.default_agent
    let agent_config := { q.1 with
      condenser := some (CondenserConfig.llmSummarizing llm_config none none) }
    let config := q.2.set_agent_config agent_config config.default_agent
    let settings := load.getD {}
    let settings := { settings with
      llm_model := some (i.provider ++ info.separator ++ i.model)
      llm_api_key := some (⟨i.api_key⟩ : SecretStr)
      llm_base_url := none
      agent := some OH_DEFAULT_AGENT
      enable_default_condenser := some true }
    some ⟨FlowTag.saved, config, [settings], some i⟩

/-- `modify_llm_settings_basic`: run the prompt-collection phase; a caught
cancellation signal returns with nothing changed; then ask the final save
confirmation (`cli_confirm` index 0 = "Yes, save") and either commit or
return with nothing changed. -/
def modify_llm_settings_basic (V : VerifiedLists) (om : List (String × ProviderInfo))
    (config : OpenHandsConfig) (load : Option Settings) (s : BasicScript) :
    Option (FlowOut BasicInputs) :=
  match collectBasic V om s with
  | none => none
  | some (Except.error sig) => some ⟨FlowTag.cancelled sig, config, [], none⟩
  | some (Except.ok i) =>
    if s.saveConfirm = 0 then commitBasic om config load i
    else some ⟨FlowTag.declined, config, [], none⟩

/-- The prompt-collection phase of `modify_llm_settings_advanced`: custom
model, base URL and API key (non-empty), agent (membership in the agent
registry list), then two `cli_confirm` toggles where index 0 means enable. -/
def collectAdvanced (agent_list : List String) (s : AdvancedScript) :
    Option (Except CancelSignal AdvInputs) :=
  resBind (get_validated_input none s.customModelInputs) fun custom_model =>
  resBind (get_validated_input none s.baseUrlInputs) fun base_url =>
  resBind (get_validated_input none s.apiKeyInputs) fun api_key =>
  resBind
    (get_validated_input (some (fun x => agent_list.contains x)) s.agentInputs)
    fun agent =>
  resBind (some s.confirmationChoice) fun cc =>
  resBind (some s.condensationChoice) fun mc =>
  some (Except.ok ⟨custom_model, base_url, api_key, agent, cc = 0, mc = 0⟩)

/-- The commit phase of `modify_llm_settings_advanced` (lines 466-506).  Note
the final `config.set_agent_config(agent_config)` call uses the default name
`'agent'`, while the preceding lookup used `config.default_agent`. -/
def commitAdvanced (config : OpenHandsConfig) (load : Option Settings)
    (i : AdvInputs) : Option (FlowOut AdvInputs) :=
  let p := config.get_llm_config "llm"
  let llm_config := { p.1 with
    model := i.custom_model
    base_url := some i.base_url
    api_key := some ⟨i.api_key⟩ }
  let config := p.2.set_llm_config llm_config "llm"
  let config := { config with default_agent := i.agent }
  let config := { config with
    security := { config.security with confirmation_mode := i.confirmation } }
  let q := config.get_agent_config config.default_agent
  let agent_config := { q.1 with
    condenser := some (if i.condensation then
        CondenserConfig.pipeline
          [CondenserConfig.conversationWindow,
           CondenserConfig.llmSummarizing llm_config (some 4) (some 120)]
      else CondenserConfig.conversationWindow) }
  let config := q.2.set_agent_config agent_config "agent"
  let settings := load.getD {}
  let settings := { settings with
    llm_model := some i.custom_model
    llm_api_key := some (⟨i.api_key⟩ : SecretStr)
    llm_base_url := some i.base_url
    agent := some i.agent
    confirmation_mode := some i.confirmation
    enable_default_condenser := some i.condensation }
  some ⟨FlowTag.saved, config, [settings], some i⟩

/-- `modify_llm_settings_advanced`: collection phase, cancellation handling,
final save confirmation, commit. -/
def modify_llm_settings_advanced (agent_list : List String)
    (config : OpenHandsConfig) (load : Option Settings) (s : AdvancedScript) :
    Option (FlowOut AdvInputs) :=
  match collectAdvanced agent_list s with
  | none => none
  | some (Except.error sig) => some ⟨FlowTag.cancelled sig, config, [], none⟩
  | some (Except.ok i) =>
    if s.saveConfirm = 0 then commitAdvanced config load i
    else some ⟨FlowTag.declined, config, [], none⟩

/-- The prompt-collection phase of `modify_search_api_settings`: option 0
prompts for a key that must be non-blank and start with `tvly-`, option 1
selects removal (the empty-string sentinel), any other option keeps the
current setting (inner `none`). -/
def collectSearch (s : SearchScript) :
    Option (Except CancelSignal (Option SearchInputs)) :=
  resBind (some s.modifyChoice) fun modify_key =>
  if modify_key = 0 then
    resBind
      (get_validated_input
        (some (fun x => if !(x.trim == "") then x.startsWith "tvly-" else false))
        s.keyInputs)
      fun k => some (Except.ok (some ⟨k⟩))
  else if modify_key = 1 then some (Except.ok (some ⟨""⟩))
  else some (Except.ok none)

/-- The commit phase of `modify_search_api_settings` (lines 568-578): a
non-empty key is wrapped in a secret, the empty sentinel clears the field to
`None`, in both the configuration root and the stored settings. -/
def commitSearch (config : OpenHandsConfig) (load : Option Settings)
    (i : SearchInputs) : Option (FlowOut SearchInputs) :=
  let config := { config with
    search_api_key :=
      if !(i.search_api_key == "") then some (⟨i.search_api_key⟩ : SecretStr) else none }
  let settings := load.getD {}
  let settings := { settings with
    search_api_key :=
      if !(i.search_api_key == "") then some (⟨i.search_api_key⟩ : SecretStr) else none }
  some ⟨FlowTag.saved, config, [settings], some i⟩

/-- `modify_search_api_settings`: collection phase, cancellation handling,
the keep-current early return, final save confirmation, commit. -/
def modify_search_api_settings (config : OpenHandsConfig) (load : Option Settings)
    (s : SearchScript) : Option (FlowOut SearchInputs) :=
  match collectSearch s with
  | none => none
  | some (Except.error sig) => some ⟨FlowTag.cancelled sig, config, [], none⟩
  | some (Except.ok none) => some ⟨FlowTag.kept, config, [], none⟩
  | some (Except.ok (some i)) =>
    if s.saveConfirm = 0 then commitSearch config load i
    else some ⟨FlowTag.declined, config, [], none⟩

/-- Concrete verified-lists instance used by witness runs. -/
def V0 : VerifiedLists :=
  ⟨["anthropic"], [], ["claude-a", "claude-b"], [], ["oh-1"]⟩

/-- Concrete verified-lists instance for the openhands counterexample run. -/
def V1 : VerifiedLists := ⟨["openhands"], [], [], [], ["vm"]⟩

/-- Concrete registry mapping used by witness runs. -/
def om0 : List (String × ProviderInfo) := [("anthropic", ⟨"/", ["claude-a", "legacy-m"]⟩)]

/-- A fresh configuration root (all defaults). -/
def c0 : OpenHandsConfig := {}

/-- A configuration root with a search key set, for the removal witness. -/
def cKey : OpenHandsConfig := { search_api_key := some ⟨"tvly-old"⟩ }

/-- A configuration root whose llms mapping already holds the default key. -/
def cL : OpenHandsConfig := { llms := [("llm", {})] }

/-- A configuration root whose agents mapping already holds the default key. -/
def cA : OpenHandsConfig := { agents := [("agent", {})] }

/-- A concrete agent registry list for advanced-flow witness runs. -/
def agents0 : List String := ["agentA"]

/-- Basic-flow script cancelling at the very first prompt. -/
def sBasicCancel : BasicScript :=
  ⟨Except.error CancelSignal.userCancelled, [], Except.ok 0, Except.ok 0, [], [], 0⟩

/-- Advanced-flow script cancelling at the first prompt. -/
def sAdvCancel : AdvancedScript :=
  ⟨[Except.error CancelSignal.keyboardInterrupt], [], [], [], Except.ok 0, Except.ok 0, 0⟩

/-- Search-flow script cancelling at the first prompt. -/
def sSearchCancel : SearchScript := ⟨Except.error CancelSignal.eofError, [], 0⟩

/-- Basic-flow script with valid inputs but a declined final save. -/
def sBasicDecline : BasicScript :=
  ⟨Except.ok 0, [], Except.ok 0, Except.ok 0, [], [Except.ok "sk-key"], 1⟩

/-- Advanced-flow script with valid inputs but a declined final save. -/
def sAdvDecline : AdvancedScript :=
  ⟨[Except.ok "m"], [Except.ok "u"], [Except.ok "k"], [Except.ok "agentA"],
    Except.ok 0, Except.ok 1, 1⟩

/-- Search-flow script choosing removal but declining the final save. -/
def sSearchDecline : SearchScript := ⟨Except.ok 1, [], 1⟩

/-- Basic-flow script completing with default model and a confirmed save. -/
def sBasicSave : BasicScript :=
  ⟨Except.ok 0, [], Except.ok 0, Except.ok 0, [], [Except.ok "sk-key"], 0⟩

/-- Advanced-flow script completing with a confirmed save. -/
def sAdvSave : AdvancedScript :=
  ⟨[Except.ok "m"], [Except.ok "u"], [Except.ok "k"], [Except.ok "agentA"],
    Except.ok 0, Except.ok 1, 0⟩

/-- Search-flow script choosing removal and confirming. -/
def sSearchRemove : SearchScript := ⟨Except.ok 1, [], 0⟩

/-- The outcome of the saved basic-flow witness run. -/
def basicSavedOut : FlowOut BasicInputs :=
  (modify_llm_settings_basic V0 om0 c0 none sBasicSave).getD ⟨FlowTag.kept, c0, [], none⟩

/-- The outcome of the saved advanced-flow witness run. -/
def advSavedOut : FlowOut AdvInputs :=
  (modify_llm_settings_advanced agents0 c0 none sAdvSave).getD ⟨FlowTag.kept, c0, [], none⟩

theorem lookupD_insertD_self {α : Type u} (k : String) (v : α)
    (d : List (String × α)) : lookupD k (insertD k v d) = some v := by
  induction d with
  | nil => simp [insertD, lookupD]
  | cons hd tl ih =>
    obtain ⟨k1, v1⟩ := hd
    by_cases h : k1 = k <;> simp [insertD, lookupD, h, ih]

theorem lookupD_insertD_ne {α : Type u} (k k1 : String) (v : α)
    (d : List (String × α)) (h : k1 ≠ k) :
    lookupD k1 (insertD k v d) = lookupD k1 d := by
  induction d with
  | nil => simp [insertD, lookupD, Ne.symm h]
  | cons hd tl ih =>
    obtain ⟨k2, v2⟩ := hd
    by_cases h2 : k2 = k
    · subst h2
      simp [insertD, lookupD, Ne.symm h]
    · simp [insertD, lookupD, h2, ih]

theorem get_llm_config_of_mem (c : OpenHandsConfig) (name : String)
    (cfg : LLMConfig) (h : lookupD name c.llms = some cfg) :
    c.get_llm_config name = (cfg, c) := by
  simp [OpenHandsConfig.get_llm_config, h]

theorem get_agent_config_of_mem (c : OpenHandsConfig) (name : String)
    (cfg : AgentConfig) (h : lookupD name c.agents = some cfg) :
    c.get_agent_config name = (cfg, c) := by
  simp [OpenHandsConfig.get_agent_config, h]

theorem get_agent_config_llms (c : OpenHandsConfig) (name : String) :
    ((c.get_agent_config name).2).llms = c.llms := by
  unfold OpenHandsConfig.get_agent_config
  split
  · rfl
  · split <;> rfl

theorem get_agent_config_security (c : OpenHandsConfig) (name : String) :
    ((c.get_agent_config name).2).security = c.security := by
  unfold OpenHandsConfig.get_agent_config
  split
  · rfl
  · split <;> rfl

theorem get_agent_config_default_agent (c : OpenHandsConfig) (name : String) :
    ((c.get_agent_config name).2).default_agent = c.default_agent := by
  unfold OpenHandsConfig.get_agent_config
  split
  · rfl
  · split <;> rfl

theorem commitBasic_spec (om : List (String × ProviderInfo)) (c : OpenHandsConfig)
    (load : Option Settings) (i : BasicInputs) (out : FlowOut BasicInputs)
    (h : commitBasic om c load i = some out) :
    out.tag = FlowTag.saved ∧ out.inputs = some i ∧
    ∃ info st, lookupD i.provider om = some info ∧ out.stores = [st] ∧
      st.llm_model = some (i.provider ++ info.separator ++ i.model) ∧
      ((out.config.get_llm_config "llm").1).model =
        i.provider ++ info.separator ++ i.model := by
  cases h1 : lookupD i.provider om with
  | none => simp [commitBasic, h1] at h
  | some info =>
    simp only [commitBasic, h1, Option.some.injEq] at h
    subst h
    refine ⟨rfl, rfl, info, _, rfl, rfl, rfl, ?_⟩
    have hl :
        lookupD "llm"
          ((((c.get_llm_config "llm").2.set_llm_config
              { (c.get_llm_config "llm").1 with
                model := i.provider ++ info.separator ++ i.model
                api_key := some ⟨i.api_key⟩
                base_url := none } "llm")).llms) =
          some { (c.get_llm_config "llm").1 with
            model := i.provider ++ info.separator ++ i.model
            api_key := some ⟨i.api_key⟩
            base_url := none } := by
      simp [OpenHandsConfig.set_llm_config, lookupD_insertD_self]
    simp [OpenHandsConfig.set_agent_config, OpenHandsConfig.get_llm_config,
      get_agent_config_llms, OpenHandsConfig.set_llm_config, lookupD_insertD_self]

theorem commitAdvanced_spec (c : OpenHandsConfig) (load : Option Settings)
    (i : AdvInputs) (out : FlowOut AdvInputs)
    (h : commitAdvanced c load i = some out) :
    out.tag = FlowTag.saved ∧ out.inputs = some i ∧
    ∃ st, out.stores = [st] ∧
      st.llm_model = some i.custom_model ∧
      st.llm_base_url = some i.base_url ∧
      st.llm_api_key = some (⟨i.api_key⟩ : SecretStr) ∧
      st.agent = some i.agent ∧
      st.confirmation_mode = some i.confirmation ∧
      st.enable_default_condenser = some i.condensation ∧
      ((out.config.get_llm_config "llm").1).model = i.custom_model ∧
      ((out.config.get_llm_config "llm").1).base_url = some i.base_url ∧
      ((out.config.get_llm_config "llm").1).api_key = some (⟨i.api_key⟩ : SecretStr) ∧
      out.config.default_agent = i.agent ∧
      out.config.security.confirmation_mode = i.confirmation := by
  simp only [commitAdvanced, Option.some.injEq] at h
  subst h
  refine ⟨rfl, rfl, _, rfl, rfl, rfl, rfl, rfl, rfl, rfl, ?_, ?_, ?_, ?_, ?_⟩ <;>
    simp [OpenHandsConfig.set_agent_config, OpenHandsConfig.get_llm_config,
      get_agent_config_llms, get_agent_config_default_agent, get_agent_config_security,
      OpenHandsConfig.set_llm_config, lookupD_insertD_self]

theorem commitSearch_spec (c : OpenHandsConfig) (load : Option Settings)
    (i : SearchInputs) (out : FlowOut SearchInputs)
    (h : commitSearch c load i = some out) :
    out.tag = FlowTag.saved := by
  simp only [commitSearch, Option.some.injEq] at h
  subst h
  rfl

/-- C1: In every wizard flow, a cancellation signal (`UserCancelledError`,
`KeyboardInterrupt` or `EOFError`) raised at any prompt before the final save
confirmation makes the flow return with the in-memory configuration root
unchanged and with no `settings_store.store` call; the three signal classes
are treated identically (the conclusion is uniform in the caught signal). -/
theorem wizard_cancel_leaves_config_unchanged :
    (∀ (V : VerifiedLists) (om : List (String × ProviderInfo))
        (config : OpenHandsConfig) (load : Option Settings) (s : BasicScript)
        (sig : CancelSignal) (out : FlowOut BasicInputs),
      modify_llm_settings_basic V om config load s = some out →
      out.tag = FlowTag.cancelled sig →
      out.config = config ∧ out.stores = []) ∧
    (∀ (agent_list : List String) (config : OpenHandsConfig)
        (load : Option Settings) (s : AdvancedScript) (sig : CancelSignal)
        (out : FlowOut AdvInputs),
      modify_llm_settings_advanced agent_list config load s = some out →
      out.tag = FlowTag.cancelled sig →
      out.config = config ∧ out.stores = []) ∧
    (∀ (config : OpenHandsConfig) (load : Option Settings) (s : SearchScript)
        (sig : CancelSignal) (out : FlowOut SearchInputs),
      modify_search_api_settings config load s = some out →
      out.tag = FlowTag.cancelled sig →
      out.config = config ∧ out.stores = []) := by
  refine ⟨?_, ?_, ?_⟩
  · intro V om config load s sig out h htag
    cases hc : collectBasic V om s with
    | none => simp [modify_llm_settings_basic, hc] at h
    | some r =>
      cases r with
      | error sig2 =>
        simp only [modify_llm_settings_basic, hc, Option.some.injEq] at h
        subst h
        exact ⟨rfl, rfl⟩
      | ok i =>
        simp only [modify_llm_settings_basic, hc] at h
        by_cases hs : s.saveConfirm = 0
        · rw [if_pos hs] at h
          have ht := (commitBasic_spec om config load i out h).1
          rw [htag] at ht
          exact FlowTag.noConfusion ht
        · rw [if_neg hs] at h
          simp only [Option.some.injEq] at h
          subst h
          exact FlowTag.noConfusion htag
  · intro agent_list config load s sig out h htag
    cases hc : collectAdvanced agent_list s with
    | none => simp [modify_llm_settings_advanced, hc] at h
    | some r =>
      cases r with
      | error sig2 =>
        simp only [modify_llm_settings_advanced, hc, Option.some.injEq] at h
        subst h
        exact ⟨rfl, rfl⟩
      | ok i =>
        simp only [modify_llm_settings_advanced, hc] at h
        by_cases hs : s.saveConfirm = 0
        · rw [if_pos hs] at h
          have ht := (commitAdvanced_spec config load i out h).1
          rw [htag] at ht
          exact FlowTag.noConfusion ht
        · rw [if_neg hs] at h
          simp only [Option.some.injEq] at h
          subst h
          exact FlowTag.noConfusion htag
  · intro config load s sig out h htag
    cases hc : collectSearch s with
    | none => simp [modify_search_api_settings, hc] at h
    | some r =>
      cases r with
      | error sig2 =>
        simp only [modify_search_api_settings, hc, Option.some.injEq] at h
        subst h
        exact ⟨rfl, rfl⟩
      | ok o =>
        cases o with
        | none =>
          simp only [modify_search_api_settings, hc, Option.some.injEq] at h
          subst h
          exact FlowTag.noConfusion htag
        | some i =>
          simp only [modify_search_api_settings, hc] at h
          by_cases hs : s.saveConfirm = 0
          · rw [if_pos hs] at h
            have ht := commitSearch_spec config load i out h
            rw [htag] at ht
            exact FlowTag.noConfusion ht
          · rw [if_neg hs] at h
            simp only [Option.some.injEq] at h
            subst h
            exact FlowTag.noConfusion htag

/-- C1 witness: concrete runs of all three flows, each cancelled at its first
prompt by a different signal, leave the configuration root untouched and
store nothing. -/
theorem wizard_cancel_leaves_config_unchanged_witness :
    ((⟨FlowTag.cancelled CancelSignal.userCancelled, c0, [], none⟩ :
        FlowOut BasicInputs).config = c0 ∧
      (⟨FlowTag.cancelled CancelSignal.userCancelled, c0, [], none⟩ :
        FlowOut BasicInputs).stores = []) ∧
    ((⟨FlowTag.cancelled CancelSignal.keyboardInterrupt, c0, [], none⟩ :
        FlowOut AdvInputs).config = c0 ∧
      (⟨FlowTag.cancelled CancelSignal.keyboardInterrupt, c0, [], none⟩ :
        FlowOut AdvInputs).stores = []) ∧
    ((⟨FlowTag.cancelled CancelSignal.eofError, c0, [], none⟩ :
        FlowOut SearchInputs).config = c0 ∧
      (⟨FlowTag.cancelled CancelSignal.eofError, c0, [], none⟩ :
        FlowOut SearchInputs).stores = []) :=
  ⟨wizard_cancel_leaves_config_unchanged.1 V0 om0 c0 none sBasicCancel
      CancelSignal.userCancelled _ rfl rfl,
    wizard_cancel_leaves_config_unchanged.2.1 agents0 c0 none sAdvCancel
      CancelSignal.keyboardInterrupt _ rfl rfl,
    wizard_cancel_leaves_config_unchanged.2.2 c0 none sSearchCancel
      CancelSignal.eofError _ rfl rfl⟩

/-- C2: In every wizard flow, when the prompt-collection phase completes with
valid inputs but the user declines the final save confirmation, the flow
returns with the in-memory configuration root unchanged and with no
`settings_store.store` call. -/
theorem wizard_decline_save_leaves_config_unchanged :
    (∀ (V : VerifiedLists) (om : List (String × ProviderInfo))
        (config : OpenHandsConfig) (load : Option Settings) (s : BasicScript)
        (i : BasicInputs),
      collectBasic V om s = some (Except.ok i) →
      s.saveConfirm ≠ 0 →
      modify_llm_settings_basic V om config load s =
        some ⟨FlowTag.declined, config, [], none⟩) ∧
    (∀ (agent_list : List String) (config : OpenHandsConfig)
        (load : Option Settings) (s : AdvancedScript) (i : AdvInputs),
      collectAdvanced agent_list s = some (Except.ok i) →
      s.saveConfirm ≠ 0 →
      modify_llm_settings_advanced agent_list config load s =
        some ⟨FlowTag.declined, config, [], none⟩) ∧
    (∀ (config : OpenHandsConfig) (load : Option Settings) (s : SearchScript)
        (i : SearchInputs),
      collectSearch s = some (Except.ok (some i)) →
      s.saveConfirm ≠ 0 →
      modify_search_api_settings config load s =
        some ⟨FlowTag.declined, config, [], none⟩) := by
  refine ⟨?_, ?_, ?_⟩
  · intro V om config load s i hc hs
    simp only [modify_llm_settings_basic, hc]
    rw [if_neg hs]
  · intro agent_list config load s i hc hs
    simp only [modify_llm_settings_advanced, hc]
    rw [if_neg hs]
  · intro config load s i hc hs
    simp only [modify_search_api_settings, hc]
    rw [if_neg hs]

/-- C2 witness: concrete runs of all three flows reach the save confirmation
with valid inputs, decline it, and return with nothing changed and nothing
stored. -/
theorem wizard_decline_save_leaves_config_unchanged_witness :
    modify_llm_settings_basic V0 om0 c0 none sBasicDecline =
      some ⟨FlowTag.declined, c0, [], none⟩ ∧
    modify_llm_settings_advanced agents0 c0 none sAdvDecline =
      some ⟨FlowTag.declined, c0, [], none⟩ ∧
    modify_search_api_settings c0 none sSearchDecline =
      some ⟨FlowTag.declined, c0, [], none⟩ :=
  ⟨wizard_decline_save_leaves_config_unchanged.1 V0 om0 c0 none sBasicDecline
      ⟨"anthropic", "claude-a", "sk-key"⟩ rfl (by decide),
    wizard_decline_save_leaves_config_unchanged.2.1 agents0 c0 none sAdvDecline
      ⟨"m", "u", "k", "agentA", true, false⟩ rfl (by decide),
    wizard_decline_save_leaves_config_unchanged.2.2 c0 none sSearchDecline
      ⟨""⟩ rfl (by decide)⟩

/-- C3: When `modify_llm_settings_basic` completes with a confirmed save, the
single stored settings record's `llm_model` and the in-memory default LLM
profile's `model` both equal the selected provider, followed by that
provider's separator from the registry mapping, followed by the selected
model. -/
theorem basic_save_model_composition (V : VerifiedLists)
    (om : List (String × ProviderInfo)) (config : OpenHandsConfig)
    (load : Option Settings) (s : BasicScript) (out : FlowOut BasicInputs)
    (h : modify_llm_settings_basic V om config load s = some out)
    (htag : out.tag = FlowTag.saved) :
    ∃ i info st, out.inputs = some i ∧ lookupD i.provider om = some info ∧
      out.stores = [st] ∧
      st.llm_model = some (i.provider ++ info.separator ++ i.model) ∧
      ((out.config.get_llm_config "llm").1).model =
        i.provider ++ info.separator ++ i.model := by
  cases hc : collectBasic V om s with
  | none => simp [modify_llm_settings_basic, hc] at h
  | some r =>
    cases r with
    | error sig =>
      simp only [modify_llm_settings_basic, hc, Option.some.injEq] at h
      subst h
      exact FlowTag.noConfusion htag
    | ok i =>
      simp only [modify_llm_settings_basic, hc] at h
      by_cases hs : s.saveConfirm = 0
      · rw [if_pos hs] at h
        obtain ⟨-, hi, info, st, hl, hst, hm, hcfg⟩ := commitBasic_spec om config load i out h
        exact ⟨i, info, st, hi, hl, hst, hm, hcfg⟩
      · rw [if_neg hs] at h
        simp only [Option.some.injEq] at h
        subst h
        exact FlowTag.noConfusion htag

/-- C3 witness: a concrete confirmed basic-flow run over a one-provider
registry composes `anthropic` + `/` + `claude-a` into both the stored record
and the in-memory default LLM profile. -/
theorem basic_save_model_composition_witness :
    ∃ i info st, basicSavedOut.inputs = some i ∧ lookupD i.provider om0 = some info ∧
      basicSavedOut.stores = [st] ∧
      st.llm_model = some (i.provider ++ info.separator ++ i.model) ∧
      ((basicSavedOut.config.get_llm_config "llm").1).model =
        i.provider ++ info.separator ++ i.model :=
  basic_save_model_composition V0 om0 c0 none sBasicSave basicSavedOut rfl rfl

/-- C4: `get_validated_input` never returns a value rejected by the supplied
validator (or an empty value when no validator is supplied), and it
re-prompts after each rejected response: the loop's behaviour on a rejected
head is exactly its behaviour on the remaining responses; it terminates only
on an accepted input or a cancellation signal. -/
theorem get_validated_input_spec :
    (∀ (validator : Option (String → Bool))
        (inputs : List (Except CancelSignal String)) (v : String),
      get_validated_input validator inputs = some (Except.ok v) →
      validOf validator v = true) ∧
    (∀ (validator : Option (String → Bool)) (v : String)
        (rest : List (Except CancelSignal String)),
      validOf validator v = false →
      get_validated_input validator (Except.ok v :: rest) =
        get_validated_input validator rest) ∧
    (∀ (inputs : List (Except CancelSignal String)) (v : String),
      get_validated_input none inputs = some (Except.ok v) → v ≠ "") := by
  have main : ∀ (validator : Option (String → Bool))
      (inputs : List (Except CancelSignal String)) (v : String),
      get_validated_input validator inputs = some (Except.ok v) →
      validOf validator v = true := by
    intro validator inputs
    induction inputs with
    | nil => intro v h; exact Option.noConfusion h
    | cons x rest ih =>
      intro v h
      cases x with
      | error sig =>
        simp only [get_validated_input, Option.some.injEq] at h
        exact Except.noConfusion h
      | ok w =>
        by_cases hv : validOf validator w
        · rw [get_validated_input, if_pos hv] at h
          simp only [Option.some.injEq, Except.ok.injEq] at h
          subst h
          exact hv
        · rw [get_validated_input, if_neg hv] at h
          exact ih v h
  refine ⟨main, ?_, ?_⟩
  · intro validator v rest hv
    rw [get_validated_input, if_neg (by simp [hv])]
  · intro inputs v h
    have := main none inputs v h
    simpa [validOf] using this

/-- C4 witness: with no validator, an empty first response is skipped and the
returned response is non-empty. -/
theorem get_validated_input_spec_witness :
    validOf none "ok" = true ∧
    get_validated_input none [Except.ok "", Except.ok "ok"] =
      get_validated_input none [Except.ok "ok"] ∧
    "ok" ≠ "" :=
  ⟨get_validated_input_spec.1 none [Except.ok "ok"] "ok" rfl,
    get_validated_input_spec.2.1 none "" [Except.ok "ok"] rfl,
    get_validated_input_spec.2.2 [Except.ok "ok"] "ok" rfl⟩

/-- C5 counterexample: on a configuration whose mappings already hold the
requested (non-default) name, `get_llm_config` and `get_agent_config` return
early and do NOT create the `'llm'` / `'agent'` default profiles, refuting
the claim that the defaults are present after any call for every prior state
and every requested name. -/
theorem default_profile_lazy_creation_cex :
    lookupD "llm"
      ((OpenHandsConfig.get_llm_config
        { llms := [("custom", {})], agents := [("custom", {})] } "custom").2).llms
      = none ∧
    lookupD "agent"
      ((OpenHandsConfig.get_agent_config
        { llms := [("custom", {})], agents := [("custom", {})] } "custom").2).agents
      = none :=
  ⟨rfl, rfl⟩

/-- C5 (amended): the default profiles are lazily created on first access in
the fallback sense: after `get_llm_config name` on a state where `name` is
not a key, `'llm'` is a key of the llms mapping (and likewise `'agent'` for
`get_agent_config`); when the requested name is already a key, the call
returns its entry and leaves the configuration unchanged, so the default
profile need not exist afterwards. -/
theorem default_profile_lazy_creation_amended :
    (∀ (c : OpenHandsConfig) (name : String), lookupD name c.llms = none →
      (lookupD "llm" ((c.get_llm_config name).2).llms).isSome = true) ∧
    (∀ (c : OpenHandsConfig) (name : String), lookupD name c.agents = none →
      (lookupD "agent" ((c.get_agent_config name).2).agents).isSome = true) ∧
    (∀ (c : OpenHandsConfig) (name : String) (cfg : LLMConfig),
      lookupD name c.llms = some cfg → c.get_llm_config name = (cfg, c)) ∧
    (∀ (c : OpenHandsConfig) (name : String) (cfg : AgentConfig),
      lookupD name c.agents = some cfg → c.get_agent_config name = (cfg, c)) := by
  refine ⟨?_, ?_, ?_, ?_⟩
  · intro c name h
    unfold OpenHandsConfig.get_llm_config
    rw [h]
    cases h2 : lookupD "llm" c.llms with
    | some cfg => simp [h2]
    | none => simp [h2, lookupD_insertD_self]
  · intro c name h
    unfold OpenHandsConfig.get_agent_config
    rw [h]
    cases h2 : lookupD "agent" c.agents with
    | some cfg => simp [h2]
    | none => simp [h2, lookupD_insertD_self]
  · intro c name cfg h
    exact get_llm_config_of_mem c name cfg h
  · intro c name cfg h
    exact get_agent_config_of_mem c name cfg h

/-- C5 witness: on a fresh configuration the first access creates the
defaults, and on configurations already holding the default keys the call
returns the entry unchanged. -/
theorem default_profile_lazy_creation_amended_witness :
    (lookupD "llm" ((c0.get_llm_config "llm").2).llms).isSome = true ∧
    (lookupD "agent" ((c0.get_agent_config "agent").2).agents).isSome = true ∧
    cL.get_llm_config "llm" = ({}, cL) ∧
    cA.get_agent_config "agent" = ({}, cA) :=
  ⟨default_profile_lazy_creation_amended.1 c0 "llm" rfl,
    default_profile_lazy_creation_amended.2.1 c0 "agent" rfl,
    default_profile_lazy_creation_amended.2.2.1 cL "llm" {} rfl,
    default_profile_lazy_creation_amended.2.2.2 cA "agent" {} rfl⟩

/-- C6 counterexample: for the `openhands` provider the options offered in
the model-selection dialog are exactly `VERIFIED_OPENHANDS_MODELS`; a
registry model outside the verified list is not offered, refuting the claim
that every verified provider offers verified models followed by the
remaining registry models. -/
theorem offered_models_openhands_cex :
    offeredModels V1 "openhands" ["extra"] ≠
      V1.openhands_models ++
        (["extra"].filter (fun m => !(V1.openhands_models.contains m))) := by
  decide

/-- C6 (amended): for the verified providers `openai`, `anthropic` and
`mistral` the offered model list equals the verified list followed by the
registry models not already verified, in registry order; for `openhands` the
offered list is exactly the verified list (the merged list is computed at
lines 251-255 but not offered).  Everything is a pure function of the
registry contents, hence deterministic. -/
theorem offered_models_amended (V : VerifiedLists) (ms : List String) :
    offeredModels V "openai" ms =
      V.openai_models ++ ms.filter (fun m => !(V.openai_models.contains m)) ∧
    offeredModels V "anthropic" ms =
      V.anthropic_models ++ ms.filter (fun m => !(V.anthropic_models.contains m)) ∧
    offeredModels V "mistral" ms =
      V.mistral_models ++ ms.filter (fun m => !(V.mistral_models.contains m)) ∧
    offeredModels V "openhands" ms = V.openhands_models ∧
    orderedProviderModels V "openhands" ms =
      V.openhands_models ++ ms.filter (fun m => !(V.openhands_models.contains m)) := by
  refine ⟨?_, ?_, ?_, ?_, ?_⟩ <;>
    simp [offeredModels, orderedProviderModels]

/-- C7: When `modify_llm_settings_advanced` completes with a confirmed save,
the collected custom model, base URL and API key appear in both the default
LLM profile and the single stored settings record, the selected agent becomes
both `config.default_agent` and `settings.agent`, the confirmation-mode
choice sets both `config.security.confirmation_mode` and
`settings.confirmation_mode`, and the memory-condensation choice sets
`settings.enable_default_condenser`. -/
theorem advanced_save_consistency (agent_list : List String)
    (config : OpenHandsConfig) (load : Option Settings) (s : AdvancedScript)
    (out : FlowOut AdvInputs)
    (h : modify_llm_settings_advanced agent_list config load s = some out)
    (htag : out.tag = FlowTag.saved) :
    ∃ i st, out.inputs = some i ∧ out.stores = [st] ∧
      st.llm_model = some i.custom_model ∧
      st.llm_base_url = some i.base_url ∧
      st.llm_api_key = some (⟨i.api_key⟩ : SecretStr) ∧
      st.agent = some i.agent ∧
      st.confirmation_mode = some i.confirmation ∧
      st.enable_default_condenser = some i.condensation ∧
      ((out.config.get_llm_config "llm").1).model = i.custom_model ∧
      ((out.config.get_llm_config "llm").1).base_url = some i.base_url ∧
      ((out.config.get_llm_config "llm").1).api_key = some (⟨i.api_key⟩ : SecretStr) ∧
      out.config.default_agent = i.agent ∧
      out.config.security.confirmation_mode = i.confirmation := by
  cases hc : collectAdvanced agent_list s with
  | none => simp [modify_llm_settings_advanced, hc] at h
  | some r =>
    cases r with
    | error sig =>
      simp only [modify_llm_settings_advanced, hc, Option.some.injEq] at h
      subst h
      exact FlowTag.noConfusion htag
    | ok i =>
      simp only [modify_llm_settings_advanced, hc] at h
      by_cases hs : s.saveConfirm = 0
      · rw [if_pos hs] at h
        obtain ⟨-, hi, st, hrest⟩ := commitAdvanced_spec config load i out h
        exact ⟨i, st, hi, hrest⟩
      · rw [if_neg hs] at h
        simp only [Option.some.injEq] at h
        subst h
        exact FlowTag.noConfusion htag

/-- C7 witness: a concrete confirmed advanced-flow run writes the collected
values consistently into the configuration root and the stored record. -/
theorem advanced_save_consistency_witness :
    ∃ i st, advSavedOut.inputs = some i ∧ advSavedOut.stores = [st] ∧
      st.llm_model = some i.custom_model ∧
      st.llm_base_url = some i.base_url ∧
      st.llm_api_key = some (⟨i.api_key⟩ : SecretStr) ∧
      st.agent = some i.agent ∧
      st.confirmation_mode = some i.confirmation ∧
      st.enable_default_condenser = some i.condensation ∧
      ((advSavedOut.config.get_llm_config "llm").1).model = i.custom_model ∧
      ((advSavedOut.config.get_llm_config "llm").1).base_url = some i.base_url ∧
      ((advSavedOut.config.get_llm_config "llm").1).api_key =
        some (⟨i.api_key⟩ : SecretStr) ∧
      advSavedOut.config.default_agent = i.agent ∧
      advSavedOut.config.security.confirmation_mode = i.confirmation :=
  advanced_save_consistency agents0 c0 none sAdvSave advSavedOut rfl rfl

/-- C8: set-then-get round trip — for every configuration state, profile name
and value, `get_llm_config name` immediately after `set_llm_config value name`
returns `value`, and likewise for the agent profile helpers. -/
theorem set_get_roundtrip (c : OpenHandsConfig) (name : String)
    (v : LLMConfig) (a : AgentConfig) :
    ((c.set_llm_config v name).get_llm_config name).1 = v ∧
    ((c.set_agent_config a name).get_agent_config name).1 = a := by
  constructor
  · rw [get_llm_config_of_mem (c.set_llm_config v name) name v
      (by simp [OpenHandsConfig.set_llm_config, lookupD_insertD_self])]
  · rw [get_agent_config_of_mem (c.set_agent_config a name) name a
      (by simp [OpenHandsConfig.set_agent_config, lookupD_insertD_self])]

/-- C9: requesting a name that is neither a key of the llms mapping nor
`'llm'` returns the default `'llm'` profile (the existing one, or a fresh
default), records it only under `'llm'`, and never adds an entry under the
requested name. -/
theorem get_llm_config_missing_name (c : OpenHandsConfig) (name : String)
    (hname : name ≠ "llm") (h : lookupD name c.llms = none) :
    lookupD "llm" ((c.get_llm_config name).2).llms = some (c.get_llm_config name).1 ∧
    lookupD name ((c.get_llm_config name).2).llms = none ∧
    (c.get_llm_config name).1 = (lookupD "llm" c.llms).getD {} := by
  unfold OpenHandsConfig.get_llm_config
  rw [h]
  cases h2 : lookupD "llm" c.llms with
  | some cfg => exact ⟨h2, h, rfl⟩
  | none =>
    refine ⟨?_, ?_, rfl⟩
    · simp [lookupD_insertD_self]
    · simp [lookupD_insertD_ne _ _ _ _ hname, h]

/-- C9 witness: requesting the absent name `x` on a fresh configuration
creates and returns the default `'llm'` profile and adds no `x` entry. -/
theorem get_llm_config_missing_name_witness :
    (lookupD "llm" ((c0.get_llm_config "x").2).llms =
        some (c0.get_llm_config "x").1 ∧
      lookupD "x" ((c0.get_llm_config "x").2).llms = none ∧
      (c0.get_llm_config "x").1 = (lookupD "llm" c0.llms).getD {}) :=
  get_llm_config_missing_name c0 "x" (by decide) rfl

/-- C10: choosing the `Remove API Key` option in `modify_search_api_settings`
and confirming the save clears `config.search_api_key` and the stored
record's `search_api_key` to `none` (not to a secret wrapping the empty
string) and calls `settings_store.store` exactly once. -/
theorem search_remove_key_sets_none (config : OpenHandsConfig)
    (load : Option Settings) (s : SearchScript)
    (hm : s.modifyChoice = Except.ok 1) (hs : s.saveConfirm = 0) :
    ∃ st, modify_search_api_settings config load s =
        some ⟨FlowTag.saved, { config with search_api_key := none }, [st],
          some ⟨""⟩⟩ ∧
      st.search_api_key = none := by
  have hc : collectSearch s = some (Except.ok (some ⟨""⟩)) := by
    simp [collectSearch, resBind, hm]
  refine ⟨{ load.getD {} with search_api_key := none }, ?_, rfl⟩
  simp only [modify_search_api_settings, hc]
  rw [if_pos hs]
  simp [commitSearch]

/-- C10 witness: a concrete run removing an existing key stores exactly one
record with `search_api_key = none` and clears the configuration field. -/
theorem search_remove_key_sets_none_witness :
    ∃ st, modify_search_api_settings cKey none sSearchRemove =
        some ⟨FlowTag.saved, { cKey with search_api_key := none }, [st],
          some ⟨""⟩⟩ ∧
      st.search_api_key = none :=
  search_remove_key_sets_none cKey none sSearchRemove rfl rfl
